import Mathlib

/-!
Verification of the os-tester stage orchestration and visual-synchronization
engine (`src/os_tester/StagesSystem.py`, `src/os_tester/newvm.py`).

The Python source is shallowly embedded below: pure computations become Lean
functions over exact rationals, the polling loop becomes a fuel-indexed
recursion over abstract capture/time streams, and process exits (`sys.exit`,
`exit`) become an explicit `exited code` outcome. Collaborator primitives
that the source treats as given (cv2.resize, skimage ssim, the VM driver,
the debug plot sink) are parameters of the model, exactly at the interface
boundary the source uses them.
-/

/-- An image as cv2 sees it: height, width, and the flattened uint8
pixel/channel data (each entry is in `[0, 255]`). -/
structure Img where
  h : Nat
  w : Nat
  data : List Nat
  deriving DecidableEq, Repr, Inhabited

/-- Status of a path on disk, as probed by `os.path.exists` / `os.path.isfile`
in `__wait_for_stage_done`: absent, present but not a regular file (e.g. a
directory), or a regular image file with the given decoded content. -/
inductive FileStat where
  | missing : FileStat
  | notFile : FileStat
  | isFile (img : Img) : FileStat
  deriving DecidableEq, Repr

/-- A `subpath` record from `os_tester.stages`: reference image path, the two
match thresholds, and the next stage name. `nextStage` is `Option String`
because a Python value can be the real `None` as well as a string. -/
structure Subpath where
  checkFile : String
  checkMseLeq : ℚ
  checkSsimGeq : ℚ
  nextStage : Option String
  deriving DecidableEq, Repr, Inhabited

/-- A stage action descriptor: a Python dict probed with `"key" in action`.
Each known key is either absent or carries its payload dict (kept abstract as
a string). -/
structure ActionDesc where
  mouse_move : Option String
  mouse_click : Option String
  keyboard_key : Option String
  keyboard_text : Option String
  command : Option String
  deriving DecidableEq, Repr

/-- A `stage` record from `os_tester.stages`. -/
structure Stage where
  name : String
  actions : List ActionDesc
  timeoutS : ℚ
  pathsList : List Subpath
  deriving DecidableEq, Repr, Inhabited

/-- `__img_mse(curImg, refImg)`: `cv2.subtract` is a saturating per-entry
subtraction on uint8 data (negative differences clamp to 0, which `Nat`
subtraction models exactly); `imgDif**2` squares each uint8 entry with
wrap-around modulo 256; `np.sum` accumulates without overflow; the sum is
divided by `h*w` of `curImg` and clamped to at most 10 via `min(mse, 10)`.
Returns the (mse, diff image) pair like the source. -/
def imgMse (curImg refImg : Img) : ℚ × Img :=
  let imgDif : Img := ⟨curImg.h, curImg.w, List.zipWith (fun a b => a - b) curImg.data refImg.data⟩
  let err : Nat := (imgDif.data.map (fun d => d * d % 256)).sum
  let mse : ℚ := (err : ℚ) / ((curImg.h * curImg.w : Nat) : ℚ)
  (min mse 10, imgDif)

/-- The collaborator numeric primitives `__comp_images` delegates to:
`cv2.resize` (resize an image to a target width/height) and
`skimage.metrics.structural_similarity` (a joint-channel SSIM scalar).
The source treats both as given library routines. -/
structure Prims where
  resize : Img → Nat → Nat → Img
  ssim : Img → Img → ℚ

/-- `__comp_images(curImg, refImg)`: resize the current capture to the
reference image width/height, then compute `__img_mse` of the resized
capture against the reference and the SSIM of the same pair. Returns
(mse, ssimIndex, difImg). -/
def compImages (prim : Prims) (curImg refImg : Img) : ℚ × ℚ × Img :=
  let curImgResized := prim.resize curImg refImg.w refImg.h
  let mseDif := imgMse curImgResized refImg
  (mseDif.1, prim.ssim curImgResized refImg, mseDif.2)

/-- The environment the synchronization loop runs against: the filesystem
state, the stream of screenshots (`caps k` is the decoded content of the
screenshot taken in polling iteration `k`), the wall clock (`start` is
`time()` at loop entry, `tick k` is the value of `time()` at the timeout
check of iteration `k`), and the numeric primitives. -/
structure WaitEnv where
  prim : Prims
  fs : String → FileStat
  caps : Nat → Img
  start : ℚ
  tick : Nat → ℚ

/-- One telemetry event, as passed to `debugPlotObj.update_plot`:
the per-candidate `mse`, `ssimIndex` and the `same` flag printed by the
loop (the reference/capture/diff images are determined by them and the
iteration, so the scores and flag are what we record). -/
structure TePoint where
  mse : ℚ
  ssim : ℚ
  same : ℚ
  deriving DecidableEq, Repr

/-- Outcome of `__wait_for_stage_done`: a matched subpath (with the number of
screenshots taken so far), a process exit with its code (`sys.exit(2)`,
`sys.exit(3)`, `exit(5)`), or fuel exhaustion of the model (the source loop
would still be running). -/
inductive WaitRes where
  | matched (sp : Subpath) (shots : Nat) : WaitRes
  | exited (code : Nat) (shots : Nat) : WaitRes
  | fuelOut (shots : Nat) : WaitRes
  deriving DecidableEq, Repr

/-- The pre-loop pass of `__wait_for_stage_done` over `stageObj.pathsList`:
for each subpath in order, `sys.exit(2)` if its `checkFile` does not exist,
`sys.exit(3)` if it exists but is no regular file, else `cv2.imread` it and
append it to `refImgList`. The error is the code of the first offending
subpath. -/
def checkRefFiles (fs : String → FileStat) : List Subpath → Except Nat (List Img)
  | [] => .ok []
  | sp :: rest =>
    match fs sp.checkFile with
    | .missing => .error 2
    | .notFile => .error 3
    | .isFile img => (checkRefFiles fs rest).map (fun l => img :: l)

/-- The inner candidate scan of one polling iteration: walk `refImgList` in
order, score the capture against each reference, and stop at the first
candidate with `same >= 1`. Faithful to the source, the thresholds compared
against are those of the Python variable `subpath` — which after the
pre-loop pass is the *last* element of `pathsList`, not the candidate under
scan (`lastMse`/`lastSsim` below). Returns the first matching index, if any,
together with the telemetry events of every evaluated candidate (the
matching candidate event included, later candidates not evaluated). -/
def scanRefs (prim : Prims) (cur : Img) (lastMse lastSsim : ℚ) : List Img → Option Nat × List TePoint
  | [] => (none, [])
  | refImg :: rest =>
    let sc := compImages prim cur refImg
    let same : ℚ := if sc.1 < lastMse ∧ sc.2.1 > lastSsim then 1 else 0
    let ev : TePoint := ⟨sc.1, sc.2.1, same⟩
    if same ≥ 1 then (some 0, [ev])
    else
      match scanRefs prim cur lastMse lastSsim rest with
      | (none, evs) => (none, ev :: evs)
      | (some i, evs) => (some (i + 1), ev :: evs)

/-- The polling loop of `__wait_for_stage_done`, fuel-indexed. Iteration `k`:
take one screenshot (`env.caps k`), scan the candidates with the stale
last-subpath thresholds, and either return the matched subpath
(`stageObj.pathsList[resultindex]`), or — when no candidate matched — test
`start + timeoutinS >= time()` and `exit(5)` when it holds, else sleep and
loop. Telemetry events are emitted only when `dbg` (= `self.debugPlt`) is
set; the second component collects everything sent to the plot sink. -/
def waitLoop (dbg : Bool) (env : WaitEnv) (st : Stage) (refs : List Img) (lastSp : Subpath) :
    Nat → Nat → WaitRes × List TePoint
  | 0, k => (.fuelOut k, [])
  | fuel + 1, k =>
    let cur := env.caps k
    let sc := scanRefs env.prim cur lastSp.checkMseLeq lastSp.checkSsimGeq refs
    let emitted := if dbg then sc.2 else []
    match sc.1 with
    | some i => (.matched (st.pathsList.getD i default) (k + 1), emitted)
    | none =>
      if env.start + st.timeoutS ≥ env.tick k then (.exited 5 (k + 1), emitted)
      else
        let rec2 := waitLoop dbg env st refs lastSp fuel (k + 1)
        (rec2.1, emitted ++ rec2.2)

/-- `__wait_for_stage_done(stageObj)`: check every reference file before any
screenshot is taken, then run the polling loop. The Python loop variable
`subpath` retains the last element of `pathsList` when the loop body runs
(for an empty `pathsList` the threshold expression is never evaluated, so
the `default` fallback is inert). -/
def waitForStageDone (dbg : Bool) (env : WaitEnv) (st : Stage) (fuel : Nat) :
    WaitRes × List TePoint :=
  match checkRefFiles env.fs st.pathsList with
  | .error c => (.exited c 0, [])
  | .ok refs => waitLoop dbg env st refs (st.pathsList.getLastD default) fuel 0

/-- Modelled from the spec: the Machine Capability Interface of §6 (declared
in `os_tester.IAction`, implemented by `newvm`, both accessed by the
dispatcher through name-mangled private attributes). One constructor per
logical input-event delivery the dispatcher can invoke; `keyboard_text` and
`command` both deliver through the keyboard-text capability. -/
inductive MachineCall where
  | sendMouseMove (p : String) : MachineCall
  | sendMouseClick (p : String) : MachineCall
  | sendKeyboardKey (p : String) : MachineCall
  | sendKeyboardText (p : String) : MachineCall
  deriving DecidableEq, Repr

/-- The body of `__perform_stage_actions` for one action descriptor: the
`if/elif` chain probes the keys in source order and invokes exactly one
machine call for the first key present, raising
`Exception("Invalid stage action: ...")` when none matches. -/
def dispatchOne (a : ActionDesc) : Except String MachineCall :=
  match a.mouse_move with
  | some p => .ok (.sendMouseMove p)
  | none =>
    match a.mouse_click with
    | some p => .ok (.sendMouseClick p)
    | none =>
      match a.keyboard_key with
      | some p => .ok (.sendKeyboardKey p)
      | none =>
        match a.keyboard_text with
        | some p => .ok (.sendKeyboardText p)
        | none =>
          match a.command with
          | some p => .ok (.sendKeyboardText p)
          | none => .error "Invalid stage action"

/-- `__perform_stage_actions(stageObj)`: dispatch each action descriptor of
`stageObj.actions` in declared order, stopping at the first invalid
descriptor; the result is the ordered sequence of machine calls made. -/
def performStageActions : List ActionDesc → Except String (List MachineCall)
  | [] => .ok []
  | a :: rest =>
    match dispatchOne a with
    | .error e => .error e
    | .ok c => (performStageActions rest).map (fun l => c :: l)

/-- The descriptor-to-capability correspondence in the words of the spec
(§4.3): mouse_move → mouse-move, mouse_click → mouse-click, keyboard_key →
keyboard-key, keyboard_text / command → keyboard-text delivery; defined only
for well-formed descriptors carrying exactly one variant. -/
def corrCall (a : ActionDesc) : Option MachineCall :=
  match a.mouse_move, a.mouse_click, a.keyboard_key, a.keyboard_text, a.command with
  | some p, none, none, none, none => some (.sendMouseMove p)
  | none, some p, none, none, none => some (.sendMouseClick p)
  | none, none, some p, none, none => some (.sendKeyboardKey p)
  | none, none, none, some p, none => some (.sendKeyboardText p)
  | none, none, none, none, some p => some (.sendKeyboardText p)
  | _, _, _, _, _ => none

/-- Outcome of one `run_stages` iteration tail (lines 205–215): the run
stops successfully (`break` on the sentinel), aborts with `exit(10)`, or
continues with the stage the `while` loop will execute next. -/
inductive StepRes where
  | done : StepRes
  | fatal (code : Nat) : StepRes
  | next (st : Stage) : StepRes
  deriving DecidableEq, Repr

/-- The per-iteration tail of `run_stages`, given the loaded stage list, the
stage just executed (`cur`, which the `while` loop would re-run unchanged if
the `for` body never executed), and the `nextStageName` returned by
`__run_stage`. Faithful to the source: `nextStageName == "None"` breaks the
run; otherwise the `for` loop examines `stagesList[0]` first and its `else`
branch calls `exit(10)` on the very first non-matching stage, so only a
match at the head of the list continues the run. A Python `None` value never
equals the string `"None"` and never equals the `name` string of a stage. -/
def runStagesStep (stagesList : List Stage) (cur : Stage) (nextStageName : Option String) :
    StepRes :=
  if nextStageName = some "None" then .done
  else
    match stagesList with
    | [] => .next cur
    | s :: _ => if some s.name = nextStageName then .next s else .fatal 10

/-- Modelled from the spec: the true mean-square error (the spec scorer
section) — the pixel-wise squared difference of the *signed* difference (not
truncated), summed, divided by width×height, clamped to at most 10. Used
only to compare the `__img_mse` of the source against the spec. -/
def mseTrue (curImg refImg : Img) : ℚ :=
  let err : ℤ := (List.zipWith (fun a b => ((a : ℤ) - (b : ℤ)) ^ 2) curImg.data refImg.data).sum
  min ((err : ℚ) / ((curImg.w * curImg.h : Nat) : ℚ)) 10

/-! Concrete scenarios. Each claim below that refutes a spec sentence is
settled on a small fully concrete environment: 1×1 single-channel images,
an identity resize (cv2.resize to identical dimensions is the identity),
and SSIM primitives within the documented contract (a scalar, higher =
more similar). -/

/-- Primitives for the stale-threshold scenario: identity resize, SSIM
constantly 4/5. -/
def primC1 : Prims := ⟨fun c _ _ => c, fun _ _ => 4/5⟩

/-- First candidate of the stale-threshold scenario: loose thresholds
(mse below 5, ssim above 1/2). -/
def spA1 : Subpath := ⟨"a1", 5, 1/2, some "None"⟩

/-- Last candidate of the stale-threshold scenario: tight thresholds
(mse below 1/10, ssim above 9/10). -/
def spB1 : Subpath := ⟨"b1", 1/10, 9/10, some "None"⟩

/-- Stage of the stale-threshold scenario: candidates `[spA1, spB1]` in
declared order, ten-second timeout. -/
def stC1 : Stage := ⟨"c1", [], 10, [spA1, spB1]⟩

/-- Environment of the stale-threshold scenario: both reference files
present (`a1` decodes to pixel 0, `b1` to pixel 200), every screenshot has
pixel 1, the clock advances one second per iteration. The capture scores
mse = 1, ssim = 4/5 against the first reference — inside the first
candidate thresholds but outside the last ones. -/
def envC1 : WaitEnv :=
  ⟨primC1,
   fun s => if s = "a1" then .isFile ⟨1, 1, [0]⟩
            else if s = "b1" then .isFile ⟨1, 1, [200]⟩ else .missing,
   fun _ => ⟨1, 1, [1]⟩, 0, fun k => 1 + k⟩

/-- Primitives for the first-match scenario: identity resize, SSIM 4/5
against the pixel-0 reference and 19/20 against any other reference. -/
def primC5 : Prims := ⟨fun c _ _ => c, fun _ r => if r.data = [0] then 4/5 else 19/20⟩

/-- First candidate of the first-match scenario (loose thresholds). -/
def spA5 : Subpath := ⟨"a5", 5, 1/2, some "None"⟩

/-- Last candidate of the first-match scenario (tight thresholds). -/
def spB5 : Subpath := ⟨"b5", 1/10, 9/10, some "None"⟩

/-- Stage of the first-match scenario: candidates `[spA5, spB5]`. -/
def stC5 : Stage := ⟨"c5", [], 10, [spA5, spB5]⟩

/-- Environment of the first-match scenario: reference `a5` is pixel 0,
reference `b5` is pixel 7, every screenshot is pixel 0. Both candidates then
satisfy their own thresholds (mse 0 against either reference, ssim 4/5
respectively 19/20). -/
def envC5 : WaitEnv :=
  ⟨primC5,
   fun s => if s = "a5" then .isFile ⟨1, 1, [0]⟩
            else if s = "b5" then .isFile ⟨1, 1, [7]⟩ else .missing,
   fun _ => ⟨1, 1, [0]⟩, 0, fun k => 1 + k⟩

/-- Primitives for the timeout scenario: identity resize, SSIM constantly
0. -/
def primC2 : Prims := ⟨fun c _ _ => c, fun _ _ => 0⟩

/-- A candidate that can never match: its mse threshold is 0 and mse is
never negative. -/
def spN : Subpath := ⟨"n", 0, 2, some "None"⟩

/-- Stage of the timeout scenario: single never-matching candidate,
`timeoutS = 10`. -/
def stC2 : Stage := ⟨"c2", [], 10, [spN]⟩

/-- Timeout environment one: the first timeout check happens one second
after loop start, far below the ten-second budget. -/
def envC2 : WaitEnv :=
  ⟨primC2, fun s => if s = "n" then .isFile ⟨1, 1, [0]⟩ else .missing,
   fun _ => ⟨1, 1, [0]⟩, 0, fun k => 1 + k⟩

/-- Timeout environment two: every timeout check happens after the
ten-second budget has already elapsed (first check at second 11). -/
def envC2b : WaitEnv :=
  ⟨primC2, fun s => if s = "n" then .isFile ⟨1, 1, [0]⟩ else .missing,
   fun _ => ⟨1, 1, [0]⟩, 0, fun k => 11 + k⟩

/-- A stage named `a`, first in the loaded collection. -/
def stgA : Stage := ⟨"a", [], 10, []⟩

/-- A stage named `b`, second in the loaded collection. -/
def stgB : Stage := ⟨"b", [], 10, []⟩

/-! Claim theorems. -/

/-- C1: the claim states that a candidate matches iff the captured
screenshot scores below that candidate own `checkMseLeq` and above its own
`checkSsimGeq`, and that the loop never returns a subpath whose own
thresholds are unsatisfied. The source compares every candidate against the
thresholds of the stale `subpath` loop variable — the *last* candidate of
`pathsList` — instead. Here the first candidate `spA1` satisfies its own
thresholds against the captured screenshot (mse 1 below 5, ssim 4/5 above
1/2), yet the loop finds no match at all (it then hits the `exit(5)`
branch) because mse 1 is not below the last-candidate threshold 1/10. -/
theorem C1_match_decision_uses_stale_thresholds :
    stC1.pathsList.head? = some spA1 ∧
    (compImages envC1.prim (envC1.caps 0) ⟨1, 1, [0]⟩).1 < spA1.checkMseLeq ∧
    (compImages envC1.prim (envC1.caps 0) ⟨1, 1, [0]⟩).2.1 > spA1.checkSsimGeq ∧
    envC1.fs spA1.checkFile = .isFile ⟨1, 1, [0]⟩ ∧
    waitForStageDone false envC1 stC1 1 = (.exited 5 1, []) := by
  norm_num +decide [waitForStageDone, checkRefFiles, waitLoop, scanRefs, compImages, imgMse,
    envC1, stC1, spA1, spB1, primC1, min_def, List.getLastD, Except.map]

/-- C2: the claim states the loop aborts exactly when the elapsed time is at
or beyond `timeoutS`, never earlier, and in particular not on the first
unmatched iteration for a nonzero timeout. The source tests
`start + timeoutinS >= time()` — the comparison is inverted: with a
ten-second budget the loop exits with code 5 on its very first unmatched
iteration (elapsed one second), and when the first check happens after the
budget (elapsed eleven seconds) it never aborts at all. -/
theorem C2_timeout_comparison_is_inverted :
    stC2.timeoutS = 10 ∧
    envC2.tick 0 - envC2.start = 1 ∧
    waitForStageDone false envC2 stC2 1 = (.exited 5 1, []) ∧
    envC2b.tick 0 - envC2b.start = 11 ∧
    waitForStageDone false envC2b stC2 3 = (.fuelOut 3, []) := by
  norm_num +decide [waitForStageDone, checkRefFiles, waitLoop, scanRefs, compImages, imgMse,
    envC2, envC2b, stC2, spN, primC2, min_def, List.getLastD, Except.map]

/-- C3: the claim states that when some stage in the collection carries the
resolved next-stage name, the orchestrator continues with it. The `for`
loop of `run_stages` calls `exit(10)` in the `else` branch of its very
first iteration, so a match anywhere but at the head of `stagesList` is
never reached: with collection `[stgA, stgB]` and next name `b` the run
aborts fatally although `stgB` is named `b`. -/
theorem C3_lookup_aborts_despite_existing_stage :
    stgB ∈ [stgA, stgB] ∧ stgB.name = "b" ∧
    runStagesStep [stgA, stgB] stgA (some "b") = .fatal 10 := by
  norm_num +decide [runStagesStep, stgA, stgB]

/-- C5: the claim states that when two candidates both satisfy their own
thresholds in the same iteration, the loop returns the one declared first.
Here both `spA5` (first) and `spB5` (last) satisfy their own thresholds
against the captured screenshot, yet the loop returns `spB5`: the scan
checks every candidate against the thresholds of the last candidate, which
the first-candidate scores fail (ssim 4/5 not above 9/10). -/
theorem C5_first_match_priority_violated :
    stC5.pathsList = [spA5, spB5] ∧ spA5 ≠ spB5 ∧
    (compImages envC5.prim (envC5.caps 0) ⟨1, 1, [0]⟩).1 < spA5.checkMseLeq ∧
    (compImages envC5.prim (envC5.caps 0) ⟨1, 1, [0]⟩).2.1 > spA5.checkSsimGeq ∧
    (compImages envC5.prim (envC5.caps 0) ⟨1, 1, [7]⟩).1 < spB5.checkMseLeq ∧
    (compImages envC5.prim (envC5.caps 0) ⟨1, 1, [7]⟩).2.1 > spB5.checkSsimGeq ∧
    waitForStageDone false envC5 stC5 1 = (.matched spB5 1, []) := by
  norm_num +decide [waitForStageDone, checkRefFiles, waitLoop, scanRefs, compImages, imgMse,
    envC5, stC5, spA5, spB5, primC5, min_def, List.getLastD, Except.map]

/-- C7: the claim states the returned mseScore is the clamped mean of the
*true signed* squared pixel differences. The source computes the difference
with `cv2.subtract`, which saturates negative differences to 0, and squares
the uint8 difference image with wrap-around modulo 256: for pixel 0 against
reference pixel 3 it returns mse 0 where the true clamped value is 9, and
for pixel 16 against reference pixel 0 it returns 0 (16² = 256 ≡ 0 mod 256)
where the true clamped value is 10. -/
theorem C7_mse_saturates_and_wraps :
    (imgMse ⟨1, 1, [0]⟩ ⟨1, 1, [3]⟩).1 = 0 ∧ mseTrue ⟨1, 1, [0]⟩ ⟨1, 1, [3]⟩ = 9 ∧
    (imgMse ⟨1, 1, [16]⟩ ⟨1, 1, [0]⟩).1 = 0 ∧ mseTrue ⟨1, 1, [16]⟩ ⟨1, 1, [0]⟩ = 10 := by
  norm_num [imgMse, mseTrue, min_def]

/-- C8: for every choice of resize/SSIM primitives and every pair of input
images, the mseScore returned by the scorer `__comp_images` is at most 10
(the `min(mse, 10)` clamp in `__img_mse`). -/
theorem C8_mse_clamped_at_ten (prim : Prims) (curImg refImg : Img) :
    (compImages prim curImg refImg).1 ≤ 10 :=
  show min _ 10 ≤ 10 from min_le_right _ _

/-! Helper lemmas and remaining scenario data. -/

/-- For a well-formed descriptor (the spec correspondence is defined), the
dispatcher makes exactly the corresponding machine call. -/
lemma dispatchOne_corr (a : ActionDesc) (c : MachineCall) (hc : corrCall a = some c) :
    dispatchOne a = .ok c := by
  obtain ⟨m1, m2, m3, m4, m5⟩ := a
  cases m1 <;> cases m2 <;> cases m3 <;> cases m4 <;> cases m5 <;>
    simp_all [corrCall, dispatchOne]

/-- The reference-file pass errs with code 2 (respectively 3) at the first
subpath whose file is missing (respectively no regular file), given that
every earlier subpath has a regular file. -/
lemma checkRefFiles_append_error (fs : String → FileStat) :
    ∀ (l1 : List Subpath) (sp : Subpath) (l2 : List Subpath),
      (∀ x ∈ l1, ∃ img, fs x.checkFile = .isFile img) →
      (fs sp.checkFile = .missing → checkRefFiles fs (l1 ++ sp :: l2) = .error 2) ∧
      (fs sp.checkFile = .notFile → checkRefFiles fs (l1 ++ sp :: l2) = .error 3)
  | [], sp, l2, _ => by
    refine ⟨fun h => ?_, fun h => ?_⟩ <;> simp [checkRefFiles, h]
  | x :: l1, sp, l2, hok => by
    obtain ⟨img, himg⟩ := hok x (by simp)
    have ih := checkRefFiles_append_error fs l1 sp l2 (fun y hy => hok y (by simp [hy]))
    refine ⟨fun h => ?_, fun h => ?_⟩
    · simp [checkRefFiles, himg, ih.1 h, Except.map]
    · simp [checkRefFiles, himg, ih.2 h, Except.map]

/-- The outcome component of the polling loop does not depend on the
`debugPlt` flag: only the emitted telemetry differs. -/
lemma waitLoop_fst_eq (env : WaitEnv) (st : Stage) (refs : List Img) (lastSp : Subpath) :
    ∀ (fuel k : Nat) (b1 b2 : Bool),
      (waitLoop b1 env st refs lastSp fuel k).1 = (waitLoop b2 env st refs lastSp fuel k).1
  | 0, _, _, _ => rfl
  | fuel + 1, k, b1, b2 => by
    have ih := waitLoop_fst_eq env st refs lastSp fuel (k + 1) b1 b2
    simp only [waitLoop]
    rcases (scanRefs env.prim (env.caps k) lastSp.checkMseLeq lastSp.checkSsimGeq refs).1 with _ | i
    · by_cases hto : env.start + st.timeoutS ≥ env.tick k
      · simp [hto]
      · simp [hto, ih]
    · rfl

/-- A well-formed mouse-move descriptor. -/
def actMM : ActionDesc := ⟨some "m", none, none, none, none⟩

/-- A subpath whose reference file exists as a regular file. -/
def spGood : Subpath := ⟨"g", 1, 1, some "None"⟩

/-- A subpath whose reference file is absent. -/
def spMissing : Subpath := ⟨"mq", 1, 1, some "None"⟩

/-- A subpath whose reference path exists but is no regular file. -/
def spDir : Subpath := ⟨"dq", 1, 1, some "None"⟩

/-- Stage whose second subpath has a missing reference file. -/
def stC6 : Stage := ⟨"c6", [], 10, [spGood, spMissing]⟩

/-- Stage whose second subpath has a non-regular-file reference path. -/
def stC6b : Stage := ⟨"c6b", [], 10, [spGood, spDir]⟩

/-- Environment for the reference-file scenarios: `g` is a regular file,
`dq` exists but is no regular file, everything else is missing. -/
def envC6 : WaitEnv :=
  ⟨primC2,
   fun s => if s = "g" then .isFile ⟨1, 1, [0]⟩ else if s = "dq" then .notFile else .missing,
   fun _ => ⟨1, 1, [0]⟩, 0, fun k => 1 + k⟩

/-- C4: for every stage whose action descriptors are each well-formed (carry
exactly one known variant), `__perform_stage_actions` processes the
descriptors in declared order and makes exactly one corresponding machine
call per descriptor — mouse_move to the mouse-move capability, mouse_click
to mouse-click, keyboard_key to keyboard-key, and keyboard_text or command
to the keyboard-text delivery capability (the correspondence `corrCall` is
the spec wording). -/
theorem C4_dispatch_exactly_one_call_in_order (acts : List ActionDesc)
    (h : ∀ a ∈ acts, (corrCall a).isSome = true) :
    performStageActions acts = .ok (acts.filterMap corrCall) ∧
    (acts.filterMap corrCall).length = acts.length := by
  induction acts with
  | nil => simp [performStageActions]
  | cons a rest ih =>
    obtain ⟨c, hc⟩ := Option.isSome_iff_exists.mp (h a (by simp))
    have hrest := ih (fun x hx => h x (by simp [hx]))
    refine ⟨?_, ?_⟩
    · simp [performStageActions, dispatchOne_corr a c hc, hc, hrest.1, Except.map]
    · simp [List.filterMap_cons, hc, hrest.2]

/-- C4 witness: the dispatcher on a single well-formed mouse-move descriptor
makes exactly the one corresponding call. -/
theorem C4_witness :
    performStageActions [actMM] = .ok ([actMM].filterMap corrCall) ∧
    ([actMM].filterMap corrCall).length = [actMM].length :=
  C4_dispatch_exactly_one_call_in_order [actMM] (by decide)

/-- C6: whenever some subpath of the active stage has a reference path that
is missing or no regular file (and every earlier subpath has a regular
file), `__wait_for_stage_done` aborts with zero screenshot captures taken
and an empty telemetry trace, with the stable exit code 2 for a missing
file, distinct from the stable exit code 3 for a path that is no regular
file. -/
theorem C6_bad_reference_aborts_before_polling
    (dbg : Bool) (env : WaitEnv) (st : Stage) (fuel : Nat)
    (l1 : List Subpath) (sp : Subpath) (l2 : List Subpath)
    (hsplit : st.pathsList = l1 ++ sp :: l2)
    (hok : ∀ x ∈ l1, ∃ img, env.fs x.checkFile = .isFile img) :
    (env.fs sp.checkFile = .missing →
      waitForStageDone dbg env st fuel = (.exited 2 0, [])) ∧
    (env.fs sp.checkFile = .notFile →
      waitForStageDone dbg env st fuel = (.exited 3 0, [])) := by
  have hc := checkRefFiles_append_error env.fs l1 sp l2 hok
  refine ⟨fun h => ?_, fun h => ?_⟩
  · simp [waitForStageDone, hsplit, hc.1 h]
  · simp [waitForStageDone, hsplit, hc.2 h]

/-- C6 witness: a missing second reference file exits with code 2 and zero
captures; a non-regular-file second reference path exits with code 3 and
zero captures. -/
theorem C6_witness :
    waitForStageDone false envC6 stC6 5 = (.exited 2 0, []) ∧
    waitForStageDone false envC6 stC6b 5 = (.exited 3 0, []) := by
  constructor
  · exact (C6_bad_reference_aborts_before_polling false envC6 stC6 5 [spGood] spMissing []
      rfl (fun x hx => by
        rw [List.mem_singleton] at hx
        subst hx
        exact ⟨⟨1, 1, [0]⟩, rfl⟩)).1 rfl
  · exact (C6_bad_reference_aborts_before_polling false envC6 stC6b 5 [spGood] spDir []
      rfl (fun x hx => by
        rw [List.mem_singleton] at hx
        subst hx
        exact ⟨⟨1, 1, [0]⟩, rfl⟩)).2 rfl

/-- C9: for every stage, environment (captures, clock, filesystem,
primitives) and fuel, the synchronization loop with the debug telemetry
sink enabled and with it disabled produces the same outcome — same match
decision, same returned subpath, same exit, same capture count; only the
emitted telemetry differs. -/
theorem C9_telemetry_noninterference (dbg1 dbg2 : Bool) (env : WaitEnv) (st : Stage)
    (fuel : Nat) :
    (waitForStageDone dbg1 env st fuel).1 = (waitForStageDone dbg2 env st fuel).1 := by
  unfold waitForStageDone
  cases checkRefFiles env.fs st.pathsList with
  | error c => rfl
  | ok refs => exact waitLoop_fst_eq env st refs (st.pathsList.getLastD default) fuel 0 dbg1 dbg2

/-- C10: the terminal sentinel is the literal string `None` — a `run_stages`
iteration stops successfully exactly when the matched subpath carries the
string value `None` as its next stage (a Python null value is not the
sentinel and goes to the lookup instead), and any stage the run transitions
to is never named `None`. -/
theorem C10_terminal_sentinel (stagesList : List Stage) (cur : Stage) (nm : Option String) :
    (runStagesStep stagesList cur nm = .done ↔ nm = some "None") ∧
    (∀ s rest t, stagesList = s :: rest → runStagesStep stagesList cur nm = .next t →
      t.name ≠ "None") := by
  constructor
  · constructor
    · intro h
      by_contra hne
      cases stagesList with
      | nil => simp [runStagesStep, hne] at h
      | cons s rest =>
        by_cases hm : some s.name = nm <;> simp [runStagesStep, hne, hm] at h
    · intro h; simp [runStagesStep, h]
  · intro s rest t hl hstep hname
    subst hl
    by_cases h1 : nm = some "None"
    · simp [runStagesStep, h1] at hstep
    · by_cases h2 : some s.name = nm
      · simp [runStagesStep, h1, h2] at hstep
        subst hstep
        exact h1 (hname ▸ h2.symm)
      · simp [runStagesStep, h1, h2] at hstep

/-- C10 witness: with the sentinel string as next-stage value the run stops
successfully. -/
theorem C10_witness :
    runStagesStep [stgA, stgB] stgA (some "None") = .done :=
  (C10_terminal_sentinel [stgA, stgB] stgA (some "None")).1.mpr rfl
